import Mathlib

/-!
Verification of the shielding calculator (`src/app.py`).

The core of the program is:
  * a static material registry `MATERIALS` mapping a material name to its
    linear attenuation coefficient `mu` (cm⁻¹), `density` (g/cm³), a display
    color and a linear build-up slope `b_slope`;
  * the physics engine `calculate_attenuation(thickness, mu, b_slope)`
    computing broad-beam transmission `(1 + b_slope·mu·t)·exp(-mu·t)`;
  * half/tenth value layers `hvl = ln 2 / mu`, `tvl = ln 10 / mu`;
  * the structural-load block computing wall area, volume, weight, areal
    floor loading, percent capacity and a safe/exceeded verdict;
  * the comparison tab, which looks each selected name up in `MATERIALS`
    (a Python `KeyError` escapes for an unknown name) and maps the
    attenuation function over the thickness domain.

Real-valued physics is embedded over `ℝ` (the exponential is
transcendental); the load calculator, which is plain field arithmetic,
is embedded over `ℚ` so that concrete runs are decidable.  Python raises
`ZeroDivisionError` on division by zero, so the load calculator is
embedded in `Except` with an explicit guard at each division.
-/

namespace Shielding

/-- Physical constants of one registry entry, as in the `MATERIALS` dict:
`mu` in cm⁻¹, `density` in g/cm³, a display color string, and the linear
build-up slope `b_slope`. -/
structure Material where
  mu : ℚ
  density : ℚ
  color : String
  b_slope : ℚ
deriving DecidableEq, Repr

/-- The `MATERIALS` dict of `src/app.py`, in registration order. -/
def MATERIALS : List (String × Material) :=
  [ ("Lead (Pb)", ⟨0.771, 11.34, "#7f8c8d", 1.2⟩),
    ("Tungsten Heavy Alloy (WHA)", ⟨1.250, 18.50, "#2c3e50", 1.1⟩),
    ("Depleted Uranium (DU)", ⟨1.300, 19.00, "#1abc9c", 1.05⟩),
    ("Lead-Antimony Alloy", ⟨0.750, 11.00, "#95a5a6", 1.25⟩),
    ("Iron (Fe)", ⟨0.443, 7.87, "#a04000", 1.8⟩),
    ("Concrete (Standard)", ⟨0.151, 2.35, "#bdc3c7", 2.5⟩),
    ("Water (H2O)", ⟨0.070, 1.00, "#3498db", 3.2⟩),
    ("Inconel 718", ⟨0.480, 8.19, "#f39c12", 1.7⟩),
    ("Wood's Metal", ⟨0.650, 9.60, "#e74c3c", 1.5⟩),
    ("Tantalum (Ta)", ⟨0.950, 16.69, "#9b59b6", 1.15⟩) ]

/-- Dictionary lookup `MATERIALS[name]`: `none` models the Python
`KeyError` raised for a name that is not a key. -/
def lookupMaterial (name : String) : Option Material :=
  (MATERIALS.find? (fun p => p.1 == name)).map (fun p => p.2)

/-- `calculate_attenuation(thickness_range, mu, b_slope)` of `src/app.py`
at a single thickness sample:
`mfp = mu * t`, `B = 1 + b_slope * mfp`, result `B * exp(-mfp)`. -/
noncomputable def calculate_attenuation (thickness mu b_slope : ℝ) : ℝ :=
  let mfp := mu * thickness
  let B := 1 + (b_slope * mfp)
  B * Real.exp (-mfp)

/-- Modelled from the spec words of §4.2 (for the refinement claim C1
only): `mfp = mu * t`, `B = 1 + buildupSlope * mfp`,
`transmission = B * exp(-mfp)` written out as one expression. -/
noncomputable def transmissionSpec (thickness mu buildupSlope : ℝ) : ℝ :=
  (1 + buildupSlope * (mu * thickness)) * Real.exp (-(mu * thickness))

/-- The series the comparison tab computes for one material: the
attenuation function mapped over the thickness domain. -/
noncomputable def computeTransmissionSeries (m : Material) (domain : List ℝ) : List ℝ :=
  domain.map (fun t => calculate_attenuation t (m.mu : ℝ) (m.b_slope : ℝ))

/-- `hvl = np.log(2) / mu`, as in the reference-data table. -/
noncomputable def hvl (mu : ℝ) : ℝ := Real.log 2 / mu

/-- `tvl = np.log(10) / mu`, as in the reference-data table. -/
noncomputable def tvl (mu : ℝ) : ℝ := Real.log 10 / mu

/-- The two ways a run of the core can fail: an unknown registry key
(Python `KeyError`) and a division by zero (Python `ZeroDivisionError`). -/
inductive ShieldError where
  | unknownMaterial (name : String)
  | zeroDivision
deriving DecidableEq, Repr

/-- The comparison tab's loop over the selected names: each name is
looked up in `MATERIALS` (the first unknown name escapes as an error)
and its attenuation series over the domain is collected in order. -/
noncomputable def buildComparison : List String → List ℝ → Except ShieldError (List (String × List ℝ))
  | [], _ => Except.ok []
  | name :: rest, domain =>
    match lookupMaterial name with
    | none => Except.error (ShieldError.unknownMaterial name)
    | some props =>
      match buildComparison rest domain with
      | Except.error e => Except.error e
      | Except.ok tail =>
        Except.ok ((name, computeTransmissionSeries props domain) :: tail)

/-- The structural verdict: the success branch, or the error branch
carrying the overage `loading - floor_max`. -/
inductive Verdict where
  | safe
  | exceeded (overage : ℚ)
deriving DecidableEq, Repr

/-- Everything the structural tab computes from one set of inputs. -/
structure LoadResult where
  area : ℚ
  volume_m3 : ℚ
  total_weight : ℚ
  loading : ℚ
  percent_capacity : ℚ
  verdict : Verdict
deriving DecidableEq, Repr

/-- The calculation block of the structural tab (`src/app.py` lines
100–118): `area = wall_h * wall_w`, `volume_m3 = area * (target_thick /
100)`, `density_kg_m3 = density * 1000`, `total_weight = volume_m3 *
density_kg_m3`, `loading = total_weight / area`, `percent_capacity =
(loading / floor_max) * 100`, and the verdict `if loading > floor_max`.
The two divisions are guarded: Python raises `ZeroDivisionError` there. -/
def computeLoad (wall_h wall_w target_thick density floor_max : ℚ) :
    Except ShieldError LoadResult :=
  let area := wall_h * wall_w
  let volume_m3 := area * (target_thick / 100)
  let density_kg_m3 := density * 1000
  let total_weight := volume_m3 * density_kg_m3
  if area = 0 then Except.error ShieldError.zeroDivision
  else
    let loading := total_weight / area
    if floor_max = 0 then Except.error ShieldError.zeroDivision
    else
      let percent_capacity := (loading / floor_max) * 100
      if floor_max < loading then
        Except.ok ⟨area, volume_m3, total_weight, loading, percent_capacity,
          Verdict.exceeded (loading - floor_max)⟩
      else
        Except.ok ⟨area, volume_m3, total_weight, loading, percent_capacity,
          Verdict.safe⟩

/-- Closed form of a successful run of the load calculator: with a
nonzero area and a nonzero floor limit, the loading simplifies to
`density·1000·thickness/100` — the area cancels. -/
lemma computeLoad_ok (h w t d cap : ℚ) (harea : h * w ≠ 0) (hcap : cap ≠ 0) :
    computeLoad h w t d cap =
      Except.ok ⟨h * w, h * w * (t / 100), h * w * (t / 100) * (d * 1000),
        d * 1000 * t / 100, d * 1000 * t / 100 / cap * 100,
        if cap < d * 1000 * t / 100 then
          Verdict.exceeded (d * 1000 * t / 100 - cap)
        else Verdict.safe⟩ := by
  have hL : h * w * (t / 100) * (d * 1000) / (h * w) = d * 1000 * t / 100 := by
    field_simp
    ring
  by_cases hcl : cap < d * 1000 * t / 100
  · simp only [computeLoad, if_neg harea, if_neg hcap, hL, if_pos hcl]
  · simp only [computeLoad, if_neg harea, if_neg hcap, hL, if_neg hcl]

/-- Claim C1: for every `(mu, b_slope)` pair and every thickness, the
implemented attenuation equals the spec's closed form
`(1 + buildupSlope·mu·t) · exp(-(mu·t))`. -/
theorem calculate_attenuation_refines_spec (t mu b_slope : ℝ) :
    calculate_attenuation t mu b_slope = transmissionSpec t mu b_slope := rfl

/-- Claim C6: at thickness `t = 0` the transmission is exactly `1`,
for any material constants. -/
theorem calculate_attenuation_at_zero (mu b_slope : ℝ) :
    calculate_attenuation 0 mu b_slope = 1 := by
  simp [calculate_attenuation]

/-- Claim C2: for every wall spec with positive height, width and floor
capacity, the load calculator succeeds and its outputs satisfy
`area = height·width`, `volume = area·(thicknessCm/100)`,
`totalWeight = volume·(density·1000)`, `arealLoad = totalWeight/area`
and `capacityUsedPct = (arealLoad/floorCapacity)·100`. -/
theorem computeLoad_formulas (h w t d cap : ℚ)
    (hh : 0 < h) (hw : 0 < w) (hcap : 0 < cap) :
    ∃ r : LoadResult, computeLoad h w t d cap = Except.ok r ∧
      r.area = h * w ∧
      r.volume_m3 = r.area * (t / 100) ∧
      r.total_weight = r.volume_m3 * (d * 1000) ∧
      r.loading = r.total_weight / r.area ∧
      r.percent_capacity = r.loading / cap * 100 := by
  have harea : h * w ≠ 0 := (mul_pos hh hw).ne'
  refine ⟨_, computeLoad_ok h w t d cap harea hcap.ne', rfl, rfl, rfl, ?_, rfl⟩
  show d * 1000 * t / 100 = h * w * (t / 100) * (d * 1000) / (h * w)
  field_simp
  ring

/-- Witness for claim C2 at the spec's round-trip fixture: height 2 m,
width 3 m, thickness 10 cm, Lead density 11.34 g/cm³, floor limit
1000 kg/m² give volume 0.6 m³, weight 6804 kg, loading 1134 kg/m²,
capacity used 113.4 %, verdict exceeded by 134 kg/m². -/
theorem computeLoad_formulas_witness :
    computeLoad 2 3 10 (567 / 50) 1000 =
      Except.ok ⟨6, 3 / 5, 6804, 1134, 567 / 5, Verdict.exceeded 134⟩ ∧
    (∃ r : LoadResult, computeLoad 2 3 10 (567 / 50) 1000 = Except.ok r ∧
      r.area = 2 * 3 ∧
      r.volume_m3 = r.area * (10 / 100) ∧
      r.total_weight = r.volume_m3 * (567 / 50 * 1000) ∧
      r.loading = r.total_weight / r.area ∧
      r.percent_capacity = r.loading / 1000 * 100) :=
  ⟨by norm_num [computeLoad],
   computeLoad_formulas 2 3 10 (567 / 50) 1000 (by norm_num) (by norm_num)
     (by norm_num)⟩

/-- Claim C3: for every wall spec with positive dimensions and a positive
floor capacity, the verdict is `safe` exactly when the areal loading is
at most the capacity (equality is safe), and a strictly larger loading
yields `exceeded` carrying the overage `loading - capacity`. -/
theorem computeLoad_verdict (h w t d cap : ℚ)
    (hh : 0 < h) (hw : 0 < w) (hcap : 0 < cap) :
    ∃ r : LoadResult, computeLoad h w t d cap = Except.ok r ∧
      (r.verdict = Verdict.safe ↔ r.loading ≤ cap) ∧
      (cap < r.loading → r.verdict = Verdict.exceeded (r.loading - cap)) := by
  have harea : h * w ≠ 0 := (mul_pos hh hw).ne'
  refine ⟨_, computeLoad_ok h w t d cap harea hcap.ne', ?_, ?_⟩
  · by_cases hcl : cap < d * 1000 * t / 100
    · exact iff_of_false (by simp [if_pos hcl]) (not_le.mpr hcl)
    · exact iff_of_true (by simp [if_neg hcl]) (not_lt.mp hcl)
  · intro hcl
    show (if cap < d * 1000 * t / 100 then
        Verdict.exceeded (d * 1000 * t / 100 - cap) else Verdict.safe) = _
    rw [if_pos hcl]

/-- Witness for claim C3 at the spec fixture (loading 1134 over a 1000
limit): the verdict is exceeded with overage 134. -/
theorem computeLoad_verdict_witness :
    (0 : ℚ) < 2 ∧ (0 : ℚ) < 3 ∧ (0 : ℚ) < 1000 ∧
    ∃ r : LoadResult, computeLoad 2 3 10 (567 / 50) 1000 = Except.ok r ∧
      (r.verdict = Verdict.safe ↔ r.loading ≤ 1000) ∧
      (1000 < r.loading → r.verdict = Verdict.exceeded (r.loading - 1000)) :=
  ⟨by norm_num, by norm_num, by norm_num,
   computeLoad_verdict 2 3 10 (567 / 50) 1000 (by norm_num) (by norm_num)
     (by norm_num)⟩

/-- Counterexample to claim C7: at height `-1` (and at thickness `0`
likewise) the code does not fail at all — there is no
`InvalidGeometryError` anywhere in `src/app.py`; the block simply
computes, and here returns a successful result with negative area. -/
theorem computeLoad_no_geometry_validation :
    computeLoad (-1) 3 10 (567 / 50) 1000 =
      Except.ok ⟨-3, -3 / 10, -3402, 1134, 567 / 5, Verdict.exceeded 134⟩ := by
  norm_num [computeLoad]

/-- Claim C7 as amended: the load calculator performs no geometry or
capacity validation; it succeeds for any inputs (positive or not)
whenever `height·width ≠ 0` and `floorCapacity ≠ 0`, and its only
failures are the division-by-zero errors at `height·width = 0` or
`floorCapacity = 0`. -/
theorem computeLoad_only_zero_division_fails (h w t d cap : ℚ) :
    (h * w ≠ 0 → cap ≠ 0 →
      ∃ r : LoadResult, computeLoad h w t d cap = Except.ok r) ∧
    (h * w = 0 → computeLoad h w t d cap = Except.error ShieldError.zeroDivision) ∧
    (h * w ≠ 0 → cap = 0 →
      computeLoad h w t d cap = Except.error ShieldError.zeroDivision) := by
  refine ⟨fun harea hcap => ⟨_, computeLoad_ok h w t d cap harea hcap⟩,
    fun harea => ?_, fun harea hcap => ?_⟩
  · simp only [computeLoad, if_pos harea]
  · simp only [computeLoad, if_neg harea, if_pos hcap]

/-- Witness for the amended claim C7 at height `-1`: the nonzero-area,
nonzero-capacity branch succeeds even for a negative height. -/
theorem computeLoad_only_zero_division_fails_witness :
    ((-1 : ℚ) * 3 ≠ 0 → (1000 : ℚ) ≠ 0 →
      ∃ r : LoadResult, computeLoad (-1) 3 10 (567 / 50) 1000 = Except.ok r) ∧
    ((-1 : ℚ) * 3 = 0 →
      computeLoad (-1) 3 10 (567 / 50) 1000 = Except.error ShieldError.zeroDivision) ∧
    ((-1 : ℚ) * 3 ≠ 0 → (1000 : ℚ) = 0 →
      computeLoad (-1) 3 10 (567 / 50) 1000 = Except.error ShieldError.zeroDivision) :=
  computeLoad_only_zero_division_fails (-1) 3 10 (567 / 50) 1000

/-- Claim C9: two wall specs sharing material and thickness but with
different positive heights and widths get the same areal loading —
which equals `density·1000·thickness/100`, independent of the area —
hence the same percent of capacity and the same verdict. -/
theorem computeLoad_area_independent (h1 w1 h2 w2 t d cap : ℚ)
    (hh1 : 0 < h1) (hw1 : 0 < w1) (hh2 : 0 < h2) (hw2 : 0 < w2)
    (hcap : 0 < cap) :
    ∃ r1 r2 : LoadResult,
      computeLoad h1 w1 t d cap = Except.ok r1 ∧
      computeLoad h2 w2 t d cap = Except.ok r2 ∧
      r1.loading = d * 1000 * t / 100 ∧
      r1.loading = r2.loading ∧
      r1.percent_capacity = r2.percent_capacity ∧
      r1.verdict = r2.verdict :=
  ⟨_, _, computeLoad_ok h1 w1 t d cap (mul_pos hh1 hw1).ne' hcap.ne',
    computeLoad_ok h2 w2 t d cap (mul_pos hh2 hw2).ne' hcap.ne',
    rfl, rfl, rfl, rfl⟩

/-- Witness for claim C9: a 2×3 m wall and a 5×7 m wall of the same
thickness and material carry the same areal loading of 1134 kg/m². -/
theorem computeLoad_area_independent_witness :
    ∃ r1 r2 : LoadResult,
      computeLoad 2 3 10 (567 / 50) 1000 = Except.ok r1 ∧
      computeLoad 5 7 10 (567 / 50) 1000 = Except.ok r2 ∧
      r1.loading = 567 / 50 * 1000 * 10 / 100 ∧
      r1.loading = r2.loading ∧
      r1.percent_capacity = r2.percent_capacity ∧
      r1.verdict = r2.verdict :=
  computeLoad_area_independent 2 3 5 7 10 (567 / 50) 1000 (by norm_num)
    (by norm_num) (by norm_num) (by norm_num) (by norm_num)

/-- Claim C4: for any `mu > 0` the derived scalars are `HVL = ln 2 / mu`
and `TVL = ln 10 / mu` (they take no thickness domain at all), and
`TVL > HVL` since `ln 10 > ln 2`. -/
theorem hvl_tvl_formulas (mu : ℝ) (hmu : 0 < mu) :
    hvl mu = Real.log 2 / mu ∧ tvl mu = Real.log 10 / mu ∧ hvl mu < tvl mu := by
  refine ⟨rfl, rfl, ?_⟩
  have hlog : Real.log 2 < Real.log 10 := Real.log_lt_log (by norm_num) (by norm_num)
  exact (div_lt_div_iff_of_pos_right hmu).mpr hlog

/-- Witness for claim C4 at Lead's `mu = 0.771`. -/
theorem hvl_tvl_formulas_witness :
    (0 : ℝ) < 0.771 ∧
    (hvl 0.771 = Real.log 2 / 0.771 ∧ tvl 0.771 = Real.log 10 / 0.771 ∧
      hvl 0.771 < tvl 0.771) :=
  ⟨by norm_num, hvl_tvl_formulas 0.771 (by norm_num)⟩

/-- Key inequality behind the monotonic-decay claim: for a nonnegative
build-up slope, `(1 + b·x)·exp(-x)` is strictly decreasing in `x` once
`x > 2` (in fact once `x ≥ 1`, since there `1 + b·x ≥ b`). -/
lemma buildup_exp_strict_decrease (b x1 x2 : ℝ) (hb : 0 ≤ b)
    (hx1 : 2 < x1) (h12 : x1 < x2) :
    (1 + b * x2) * Real.exp (-x2) < (1 + b * x1) * Real.exp (-x1) := by
  have hd : 0 < x2 - x1 := by linarith
  have hB1 : 0 < 1 + b * x1 := by nlinarith
  have key : 0 ≤ b * (x1 - 1) * (x2 - x1) :=
    mul_nonneg (mul_nonneg hb (by linarith)) hd.le
  have step1 : 1 + b * x2 ≤ (1 + (x2 - x1)) * (1 + b * x1) := by nlinarith
  have step2 : (1 + (x2 - x1)) * (1 + b * x1) <
      Real.exp (x2 - x1) * (1 + b * x1) := by
    have hexp := Real.add_one_lt_exp hd.ne'
    exact mul_lt_mul_of_pos_right (by linarith) hB1
  calc (1 + b * x2) * Real.exp (-x2)
      < (Real.exp (x2 - x1) * (1 + b * x1)) * Real.exp (-x2) :=
        mul_lt_mul_of_pos_right (lt_of_le_of_lt step1 step2) (Real.exp_pos _)
    _ = (1 + b * x1) * (Real.exp (x2 - x1) * Real.exp (-x2)) := by ring
    _ = (1 + b * x1) * Real.exp (-x1) := by
        rw [← Real.exp_add]
        congr 1
        ring

/-- Claim C5: with `mu > 0` and `b_slope ≥ 0`, once the first thickness
already lies past two mean free paths (`mu·t1 > 2`), any thicker slab
transmits strictly less: `t1 < t2` implies
`calculate_attenuation t2 < calculate_attenuation t1`. -/
theorem calculate_attenuation_strict_decay (mu b_slope t1 t2 : ℝ)
    (hmu : 0 < mu) (hb : 0 ≤ b_slope) (h1 : 2 < mu * t1) (h12 : t1 < t2) :
    calculate_attenuation t2 mu b_slope < calculate_attenuation t1 mu b_slope := by
  have hx12 : mu * t1 < mu * t2 := by
    exact mul_lt_mul_of_pos_left h12 hmu
  simpa [calculate_attenuation] using
    buildup_exp_strict_decrease b_slope (mu * t1) (mu * t2) hb h1 hx12

/-- Witness for claim C5 at `mu = 1`, `b_slope = 1.2`, thicknesses 3 and
4 cm: past two mean free paths the thicker slab transmits strictly less. -/
theorem calculate_attenuation_strict_decay_witness :
    (0 : ℝ) < 1 ∧ (0 : ℝ) ≤ 1.2 ∧ (2 : ℝ) < 1 * 3 ∧ (3 : ℝ) < 4 ∧
    calculate_attenuation 4 1 1.2 < calculate_attenuation 3 1 1.2 :=
  ⟨by norm_num, by norm_num, by norm_num, by norm_num,
   calculate_attenuation_strict_decay 1 1.2 3 4 (by norm_num) (by norm_num)
     (by norm_num) (by norm_num)⟩

/-- Claim C10: with `mu > 0`, `b_slope ≥ 0` and `t ≥ 0`, the computed
transmission never falls below the narrow-beam exponential `exp(-mu·t)`
and is always strictly positive. -/
theorem calculate_attenuation_bounds (mu b_slope t : ℝ)
    (hmu : 0 < mu) (hb : 0 ≤ b_slope) (ht : 0 ≤ t) :
    Real.exp (-(mu * t)) ≤ calculate_attenuation t mu b_slope ∧
      0 < calculate_attenuation t mu b_slope := by
  have hx : 0 ≤ mu * t := mul_nonneg hmu.le ht
  have hbx : 0 ≤ b_slope * (mu * t) := mul_nonneg hb hx
  constructor
  · simpa [calculate_attenuation] using
      le_mul_of_one_le_left (Real.exp_pos (-(mu * t))).le (by linarith)
  · have : 0 < 1 + b_slope * (mu * t) := by linarith
    simpa [calculate_attenuation] using mul_pos this (Real.exp_pos (-(mu * t)))

/-- Witness for claim C10 at Water's constants (`mu = 0.07`,
`b_slope = 3.2`) and 50 cm. -/
theorem calculate_attenuation_bounds_witness :
    (0 : ℝ) < 0.07 ∧ (0 : ℝ) ≤ 3.2 ∧ (0 : ℝ) ≤ 50 ∧
    (Real.exp (-(0.07 * 50)) ≤ calculate_attenuation 50 0.07 3.2 ∧
      0 < calculate_attenuation 50 0.07 3.2) :=
  ⟨by norm_num, by norm_num, by norm_num,
   calculate_attenuation_bounds 0.07 3.2 50 (by norm_num) (by norm_num)
     (by norm_num)⟩

/-- Claim C8: whenever any selected name is absent from the registry,
the comparison fails with the unknown-material error (for some absent
name, namely the first one reached) — it neither drops the entry nor
fails differently. -/
theorem buildComparison_unknown_fails (names : List String) (domain : List ℝ)
    (n : String) (hmem : n ∈ names) (hnone : lookupMaterial n = none) :
    ∃ m, buildComparison names domain =
        Except.error (ShieldError.unknownMaterial m) ∧
      lookupMaterial m = none := by
  induction names with
  | nil => cases hmem
  | cons head rest ih =>
    cases hmem with
    | head =>
      exact ⟨n, by simp [buildComparison, hnone], hnone⟩
    | tail _ hmem2 =>
      cases hh : lookupMaterial head with
      | none =>
        exact ⟨head, by simp [buildComparison, hh], hh⟩
      | some props =>
        obtain ⟨m, he, hm⟩ := ih hmem2
        exact ⟨m, by simp [buildComparison, hh, he], hm⟩

/-- Witness for claim C8: the selection `["nonexistent"]` over the
domain `[0]` fails with the unknown-material error. -/
theorem buildComparison_unknown_fails_witness :
    "nonexistent" ∈ ["nonexistent"] ∧
    lookupMaterial "nonexistent" = none ∧
    ∃ m, buildComparison ["nonexistent"] [(0 : ℝ)] =
        Except.error (ShieldError.unknownMaterial m) ∧
      lookupMaterial m = none :=
  ⟨by simp, by decide,
   buildComparison_unknown_fails ["nonexistent"] [(0 : ℝ)] "nonexistent"
     (by simp) (by decide)⟩

end Shielding
